import Mathlib

/-!
MAX30100 pulse-oximeter driver: declarations of max30100.h

A shallow embedding of the public header
components/max30100/include/max30100/max30100.h: its default parameters,
its enumerations with their integer codes, and the field lists of its
structures.

Conventions.
* A C enumeration is an inductive type with the enumerators of the header as
  constructors, in header order, together with a function `code` giving the
  integer value of each enumerator (the explicit initialiser where the header
  writes one, the position otherwise, as C assigns it).
* An unsigned machine integer is a natural number; storing into a field of
  width w is reduction modulo 2 ^ w.
* A C `float` quantity is an exact rational number: rounding, infinities and
  NaN are not represented.
-/

namespace Max30100

/-! ## Enumerations -/

/-- States of the pulse detector, `typedef enum _pulse_state_machine`. -/
inductive pulse_state_machine
  | MAX30100_PULSE_IDLE
  | MAX30100_PULSE_TRACE_UP
  | MAX30100_PULSE_TRACE_DOWN
  deriving DecidableEq, Repr, Fintype

/-- Integer values of the pulse detector states. The header gives no
initialisers, so the enumerators count up from zero. -/
def pulse_state_machine.code : pulse_state_machine → Nat
  | .MAX30100_PULSE_IDLE => 0
  | .MAX30100_PULSE_TRACE_UP => 1
  | .MAX30100_PULSE_TRACE_DOWN => 2

/-- The state a stored `current_pulse_detector_state` byte stands for: the
enumerator whose value the byte equals, if there is one. -/
def pulse_state_machine.ofCode (n : Nat) : Option pulse_state_machine :=
  if n = pulse_state_machine.MAX30100_PULSE_IDLE.code then
    some .MAX30100_PULSE_IDLE
  else if n = pulse_state_machine.MAX30100_PULSE_TRACE_UP.code then
    some .MAX30100_PULSE_TRACE_UP
  else if n = pulse_state_machine.MAX30100_PULSE_TRACE_DOWN.code then
    some .MAX30100_PULSE_TRACE_DOWN
  else none

/-- Operating modes, `typedef enum _max30100_mode_t`. -/
inductive max30100_mode_t
  | MAX30100_MODE_HR_ONLY
  | MAX30100_MODE_SPO2_HR
  deriving DecidableEq, Repr, Fintype

/-- Register values of the operating modes. -/
def max30100_mode_t.code : max30100_mode_t → Nat
  | .MAX30100_MODE_HR_ONLY => 0x02
  | .MAX30100_MODE_SPO2_HR => 0x03

/-- Sampling rates, `typedef enum SamplingRate`. -/
inductive max30100_sampling_rate_t
  | MAX30100_SAMPLING_RATE_50HZ
  | MAX30100_SAMPLING_RATE_100HZ
  | MAX30100_SAMPLING_RATE_167HZ
  | MAX30100_SAMPLING_RATE_200HZ
  | MAX30100_SAMPLING_RATE_400HZ
  | MAX30100_SAMPLING_RATE_600HZ
  | MAX30100_SAMPLING_RATE_800HZ
  | MAX30100_SAMPLING_RATE_1000HZ
  deriving DecidableEq, Repr, Fintype

/-- Register values of the sampling rates. -/
def max30100_sampling_rate_t.code : max30100_sampling_rate_t → Nat
  | .MAX30100_SAMPLING_RATE_50HZ => 0x00
  | .MAX30100_SAMPLING_RATE_100HZ => 0x01
  | .MAX30100_SAMPLING_RATE_167HZ => 0x02
  | .MAX30100_SAMPLING_RATE_200HZ => 0x03
  | .MAX30100_SAMPLING_RATE_400HZ => 0x04
  | .MAX30100_SAMPLING_RATE_600HZ => 0x05
  | .MAX30100_SAMPLING_RATE_800HZ => 0x06
  | .MAX30100_SAMPLING_RATE_1000HZ => 0x07

/-- The rate in hertz that each sampling-rate enumerator names. -/
def max30100_sampling_rate_t.hz : max30100_sampling_rate_t → Nat
  | .MAX30100_SAMPLING_RATE_50HZ => 50
  | .MAX30100_SAMPLING_RATE_100HZ => 100
  | .MAX30100_SAMPLING_RATE_167HZ => 167
  | .MAX30100_SAMPLING_RATE_200HZ => 200
  | .MAX30100_SAMPLING_RATE_400HZ => 400
  | .MAX30100_SAMPLING_RATE_600HZ => 600
  | .MAX30100_SAMPLING_RATE_800HZ => 800
  | .MAX30100_SAMPLING_RATE_1000HZ => 1000

/-- LED pulse widths, `typedef enum LEDPulseWidth`. -/
inductive max30100_pulse_width_t
  | MAX30100_PULSE_WIDTH_200US_ADC_13
  | MAX30100_PULSE_WIDTH_400US_ADC_14
  | MAX30100_PULSE_WIDTH_800US_ADC_15
  | MAX30100_PULSE_WIDTH_1600US_ADC_16
  deriving DecidableEq, Repr, Fintype

/-- Register values of the LED pulse widths. -/
def max30100_pulse_width_t.code : max30100_pulse_width_t → Nat
  | .MAX30100_PULSE_WIDTH_200US_ADC_13 => 0x00
  | .MAX30100_PULSE_WIDTH_400US_ADC_14 => 0x01
  | .MAX30100_PULSE_WIDTH_800US_ADC_15 => 0x02
  | .MAX30100_PULSE_WIDTH_1600US_ADC_16 => 0x03

/-- LED drive currents, `typedef enum LEDCurrent`. -/
inductive max30100_current_t
  | MAX30100_LED_CURRENT_0MA
  | MAX30100_LED_CURRENT_4_4MA
  | MAX30100_LED_CURRENT_7_6MA
  | MAX30100_LED_CURRENT_11MA
  | MAX30100_LED_CURRENT_14_2MA
  | MAX30100_LED_CURRENT_17_4MA
  | MAX30100_LED_CURRENT_20_8MA
  | MAX30100_LED_CURRENT_24MA
  | MAX30100_LED_CURRENT_27_1MA
  | MAX30100_LED_CURRENT_30_6MA
  | MAX30100_LED_CURRENT_33_8MA
  | MAX30100_LED_CURRENT_37MA
  | MAX30100_LED_CURRENT_40_2MA
  | MAX30100_LED_CURRENT_43_6MA
  | MAX30100_LED_CURRENT_46_8MA
  | MAX30100_LED_CURRENT_50MA
  deriving DecidableEq, Repr, Fintype

/-- Register values of the LED drive currents. -/
def max30100_current_t.code : max30100_current_t → Nat
  | .MAX30100_LED_CURRENT_0MA => 0x00
  | .MAX30100_LED_CURRENT_4_4MA => 0x01
  | .MAX30100_LED_CURRENT_7_6MA => 0x02
  | .MAX30100_LED_CURRENT_11MA => 0x03
  | .MAX30100_LED_CURRENT_14_2MA => 0x04
  | .MAX30100_LED_CURRENT_17_4MA => 0x05
  | .MAX30100_LED_CURRENT_20_8MA => 0x06
  | .MAX30100_LED_CURRENT_24MA => 0x07
  | .MAX30100_LED_CURRENT_27_1MA => 0x08
  | .MAX30100_LED_CURRENT_30_6MA => 0x09
  | .MAX30100_LED_CURRENT_33_8MA => 0x0A
  | .MAX30100_LED_CURRENT_37MA => 0x0B
  | .MAX30100_LED_CURRENT_40_2MA => 0x0C
  | .MAX30100_LED_CURRENT_43_6MA => 0x0D
  | .MAX30100_LED_CURRENT_46_8MA => 0x0E
  | .MAX30100_LED_CURRENT_50MA => 0x0F

/-- The nominal drive current in milliamperes that each LED-current
enumerator names (`4_4MA` is 4.4 mA, and so on). -/
def max30100_current_t.mA : max30100_current_t → ℚ
  | .MAX30100_LED_CURRENT_0MA => 0
  | .MAX30100_LED_CURRENT_4_4MA => 4.4
  | .MAX30100_LED_CURRENT_7_6MA => 7.6
  | .MAX30100_LED_CURRENT_11MA => 11
  | .MAX30100_LED_CURRENT_14_2MA => 14.2
  | .MAX30100_LED_CURRENT_17_4MA => 17.4
  | .MAX30100_LED_CURRENT_20_8MA => 20.8
  | .MAX30100_LED_CURRENT_24MA => 24
  | .MAX30100_LED_CURRENT_27_1MA => 27.1
  | .MAX30100_LED_CURRENT_30_6MA => 30.6
  | .MAX30100_LED_CURRENT_33_8MA => 33.8
  | .MAX30100_LED_CURRENT_37MA => 37
  | .MAX30100_LED_CURRENT_40_2MA => 40.2
  | .MAX30100_LED_CURRENT_43_6MA => 43.6
  | .MAX30100_LED_CURRENT_46_8MA => 46.8
  | .MAX30100_LED_CURRENT_50MA => 50

/-! ## Default parameters -/

/-- Interval between red LED current adjustments, in milliseconds, defined
as 500 by the header. -/
def MAX30100_DEFAULT_RED_LED_CURRENT_ADJUSTMENT_MS : Nat := 500

/-- Largest accepted difference between the two channel intensities, defined
as 65000 by the header. -/
def MAX30100_DEFAULT_ACCEPTABLE_INTENSITY_DIFF : Nat := 65000

/-- Number of pulses after which the SpO2 sums are reset, defined as 4 by the
header. -/
def MAX30100_DEFAULT_RESET_SPO2_EVERY_N_PULSES : Nat := 4

/-- DC filter coefficient, defined as 0.95 by the header: the decimal literal
read as a rational number. -/
def MAX30100_DEFAULT_ALPHA : ℚ := 0.95

/-- Window of the mean filter, defined as 15 by the header. -/
def MAX30100_DEFAULT_MEAN_FILTER_SIZE : Nat := 15

/-- Lower pulse threshold, defined as 300 by the header. -/
def MAX30100_DEFAULT_PULSE_MIN_THRESHOLD : Nat := 300

/-- Upper pulse threshold, defined as 2000 by the header. -/
def MAX30100_DEFAULT_PULSE_MAX_THRESHOLD : Nat := 2000

/-- Moving-average size of the heart rate, defined as 10 by the header. -/
def MAX30100_DEFAULT_PULSE_BPM_SAMPLE_SIZE : Nat := 10

/-- Default operating mode. -/
def MAX30100_DEFAULT_OPERATING_MODE : max30100_mode_t := .MAX30100_MODE_SPO2_HR

/-- Default infrared LED current. -/
def MAX30100_DEFAULT_IR_LED_CURRENT : max30100_current_t := .MAX30100_LED_CURRENT_50MA

/-- Default starting red LED current. -/
def MAX30100_DEFAULT_START_RED_LED_CURRENT : max30100_current_t :=
  .MAX30100_LED_CURRENT_27_1MA

/-- Default sampling rate. -/
def MAX30100_DEFAULT_SAMPLING_RATE : max30100_sampling_rate_t :=
  .MAX30100_SAMPLING_RATE_100HZ

/-- Default LED pulse width. -/
def MAX30100_DEFAULT_LED_PULSE_WIDTH : max30100_pulse_width_t :=
  .MAX30100_PULSE_WIDTH_1600US_ADC_16

/-! ## Structure declarations -/

/-- The C types that the fields of the header are declared with. -/
inductive CType
  | bool
  | float
  | uint8_t
  | uint16_t
  | uint32_t
  | ptr (target : CType)
  | array (elem : CType) (len : Nat)
  | named (typedefName : String)
  deriving DecidableEq, Repr

/-- Width in bits of the unsigned integer types; none for the other types. -/
def CType.bits : CType → Option Nat
  | .uint8_t => some 8
  | .uint16_t => some 16
  | .uint32_t => some 32
  | _ => none

/-- The value an unsigned integer field holds after `v` is assigned to it:
`v` reduced modulo two to the width of the field. -/
def CType.store (t : CType) (v : Nat) : Option Nat :=
  t.bits.map fun w => v % 2 ^ w

/-- A structure declaration: its fields in declaration order, each with its
declared type. -/
abbrev CStruct := List (String × CType)

/-- Declared type of the field called `name`, if the structure has one. -/
def CStruct.fieldType (s : CStruct) (name : String) : Option CType :=
  List.lookup name s

/-- Field list of `typedef struct _max30100_fifo_t`. -/
def max30100_fifo_t : CStruct :=
  [ ("raw_ir", .uint16_t),
    ("raw_red", .uint16_t) ]

/-- Field list of `typedef struct _max30100_dc_filter_t`. -/
def max30100_dc_filter_t : CStruct :=
  [ ("w", .float),
    ("result", .float) ]

/-- Field list of `typedef struct _max30100_butterworth_filter_t`. -/
def max30100_butterworth_filter_t : CStruct :=
  [ ("v", .array .float 2),
    ("result", .float) ]

/-- Field list of `typedef struct _max30100_mean_diff_filter_t`. -/
def max30100_mean_diff_filter_t : CStruct :=
  [ ("values", .ptr .float),
    ("index", .uint8_t),
    ("sum", .float),
    ("count", .uint8_t) ]

/-- Field list of `typedef struct _max30100_data_t`, the output snapshot. -/
def max30100_data_t : CStruct :=
  [ ("pulse_detected", .bool),
    ("heart_bpm", .float),
    ("ir_cardiogram", .float),
    ("ir_dc_value", .float),
    ("red_dc_value", .float),
    ("spO2", .float),
    ("last_beat_threshold", .uint32_t),
    ("dc_filtered_red", .float),
    ("dc_filtered_ir", .float) ]

/-- Field list of `typedef struct _max30100_config_t`, the device context. -/
def max30100_config_t : CStruct :=
  [ ("i2c_num", .named "i2c_port_t"),
    ("debug", .bool),
    ("red_current", .uint8_t),
    ("last_red_current_check", .float),
    ("current_pulse_detector_state", .uint8_t),
    ("current_bpm", .float),
    ("values_bpm", .ptr .float),
    ("values_bpm_sum", .float),
    ("values_bpm_count", .uint8_t),
    ("bpm_index", .uint8_t),
    ("last_beat_threshold", .uint32_t),
    ("acceptable_intense_diff", .uint32_t),
    ("red_current_adj_ms", .uint32_t),
    ("reset_spo2_pulse_n", .uint8_t),
    ("dc_alpha", .float),
    ("pulse_min_threshold", .uint16_t),
    ("pulse_max_threshold", .uint16_t),
    ("mean_filter_size", .uint8_t),
    ("pulse_bpm_sample_size", .uint8_t),
    ("prev_fifo", .named "max30100_fifo_t"),
    ("dc_filter_ir", .named "max30100_dc_filter_t"),
    ("dc_filter_red", .named "max30100_dc_filter_t"),
    ("lpb_filter_ir", .named "max30100_butterworth_filter_t"),
    ("mean_diff_ir", .named "max30100_mean_diff_filter_t"),
    ("ir_ac_sq_sum", .float),
    ("red_ac_sq_sum", .float),
    ("samples_recorded", .uint16_t),
    ("pulses_detected", .uint16_t),
    ("current_spO2", .float),
    ("ir_current", .named "max30100_current_t") ]

/-- The output record as the specification words it, PipelineOutput:
pulse_detected a bool and eight float fields, in the order the specification
lists them. This is the specification side of the comparison with
`max30100_data_t`; it is not taken from the header. -/
def PipelineOutput_spec : CStruct :=
  [ ("pulse_detected", .bool),
    ("heart_bpm", .float),
    ("ir_cardiogram", .float),
    ("ir_dc", .float),
    ("red_dc", .float),
    ("spo2", .float),
    ("last_beat_threshold", .float),
    ("dc_filtered_red", .float),
    ("dc_filtered_ir", .float) ]

/-! ## DC filter -/

/-- Values of a `max30100_dc_filter_t`: the previous internal value `w` and
the previous filtered output `result`. -/
structure DCFilterState where
  w : ℚ
  result : ℚ
  deriving DecidableEq, Repr

/-- Modelled from the spec: the DC removal step that `max30100_update` applies
to each channel. Its body lives in max30100.c, which is not among the sources;
the header only declares the state structure and `max30100_update`. Following
the specification, section 4.1: `w_new = raw + alpha * state.w`,
`result = w_new - state.w`, the state becomes `(w_new, result)` and `result`
is returned. The first component is the returned value, the second the
updated state. -/
def dc_filter_apply (alpha raw : ℚ) (state : DCFilterState) : ℚ × DCFilterState :=
  let w_new := raw + alpha * state.w
  let result := w_new - state.w
  (result, { w := w_new, result := result })

/-- The zeroed DC filter state of a freshly initialised pipeline. -/
def DCFilterState.zero : DCFilterState := { w := 0, result := 0 }

/-! ## Properties of the enumerations -/

/-- C1: `max30100_current_t` has 16 enumerators; their codes are pairwise
distinct; every code lies in 0x00..0x0F; every integer in 0x00..0x0F is the
code of some enumerator; `MAX30100_LED_CURRENT_0MA` is 0x00 and
`MAX30100_LED_CURRENT_50MA` is 0x0F. -/
theorem led_current_codes_exactly_0x00_to_0x0F :
    Fintype.card max30100_current_t = 16
    ∧ (∀ a b : max30100_current_t, a.code = b.code → a = b)
    ∧ (∀ c : max30100_current_t, 0x00 ≤ c.code ∧ c.code ≤ 0x0F)
    ∧ (∀ n : Nat, n ≤ 0x0F → ∃ c : max30100_current_t, c.code = n)
    ∧ max30100_current_t.MAX30100_LED_CURRENT_0MA.code = 0x00
    ∧ max30100_current_t.MAX30100_LED_CURRENT_50MA.code = 0x0F := by
  refine ⟨by decide, by decide, by decide, by decide, rfl, rfl⟩

/-- C2: the pulse detector has exactly the three states Idle, TraceUp and
TraceDown, with pairwise distinct codes; `MAX30100_PULSE_IDLE` has code 0, so
a zeroed `current_pulse_detector_state` decodes to Idle; that field is a
`uint8_t`, and each code is kept unchanged when stored in it and decodes back
to its state. -/
theorem pulse_states_three_idle_is_zero :
    Fintype.card pulse_state_machine = 3
    ∧ (∀ s : pulse_state_machine,
        s = .MAX30100_PULSE_IDLE ∨ s = .MAX30100_PULSE_TRACE_UP
          ∨ s = .MAX30100_PULSE_TRACE_DOWN)
    ∧ (∀ a b : pulse_state_machine, a.code = b.code → a = b)
    ∧ pulse_state_machine.MAX30100_PULSE_IDLE.code = 0
    ∧ pulse_state_machine.ofCode 0 = some .MAX30100_PULSE_IDLE
    ∧ max30100_config_t.fieldType "current_pulse_detector_state" = some .uint8_t
    ∧ (∀ s : pulse_state_machine,
        CType.uint8_t.store s.code = some s.code
          ∧ (CType.uint8_t.store s.code).bind pulse_state_machine.ofCode = some s) := by
  refine ⟨by decide, by decide, by decide, rfl, by decide, by decide, by decide⟩

/-- C7: `max30100_sampling_rate_t` has exactly 8 enumerators, naming 50, 100,
167, 200, 400, 600, 800 and 1000 Hz; their codes are exactly 0x00..0x07 and
pairwise distinct; the lowest code names 50 Hz and the highest 1000 Hz; a
larger code always names a strictly higher rate. -/
theorem sampling_rate_codes_span_50_to_1000_hz :
    Fintype.card max30100_sampling_rate_t = 8
    ∧ (∀ h : Nat, (∃ r : max30100_sampling_rate_t, r.hz = h)
        ↔ h ∈ [50, 100, 167, 200, 400, 600, 800, 1000])
    ∧ (∀ r : max30100_sampling_rate_t, r.code ≤ 0x07)
    ∧ (∀ n : Nat, n ≤ 0x07 → ∃ r : max30100_sampling_rate_t, r.code = n)
    ∧ (∀ a b : max30100_sampling_rate_t, a.code = b.code → a = b)
    ∧ (∀ r : max30100_sampling_rate_t, r.code = 0x00 → r.hz = 50)
    ∧ (∀ r : max30100_sampling_rate_t, r.code = 0x07 → r.hz = 1000)
    ∧ (∀ r : max30100_sampling_rate_t, 50 ≤ r.hz ∧ r.hz ≤ 1000)
    ∧ (∀ a b : max30100_sampling_rate_t, a.code < b.code → a.hz < b.hz) := by
  refine ⟨by decide, ?_, by decide, by decide, by decide, by decide, by decide,
    by decide, by decide⟩
  intro h
  constructor
  · rintro ⟨r, rfl⟩
    cases r <;> decide
  · intro hmem
    simp only [List.mem_cons, List.mem_singleton, List.not_mem_nil, or_false] at hmem
    rcases hmem with rfl | rfl | rfl | rfl | rfl | rfl | rfl | rfl
    · exact ⟨.MAX30100_SAMPLING_RATE_50HZ, rfl⟩
    · exact ⟨.MAX30100_SAMPLING_RATE_100HZ, rfl⟩
    · exact ⟨.MAX30100_SAMPLING_RATE_167HZ, rfl⟩
    · exact ⟨.MAX30100_SAMPLING_RATE_200HZ, rfl⟩
    · exact ⟨.MAX30100_SAMPLING_RATE_400HZ, rfl⟩
    · exact ⟨.MAX30100_SAMPLING_RATE_600HZ, rfl⟩
    · exact ⟨.MAX30100_SAMPLING_RATE_800HZ, rfl⟩
    · exact ⟨.MAX30100_SAMPLING_RATE_1000HZ, rfl⟩

/-- Comparison of two LED currents by code agrees with comparison by the
nominal current they name. -/
theorem led_current_mA_lt_of_code_lt (a b : max30100_current_t)
    (h : a.code < b.code) : a.mA < b.mA := by
  cases a <;> cases b <;>
    first
      | exact absurd h (by decide)
      | norm_num [max30100_current_t.mA]

/-- C10: the LED current encoding is strictly monotone in the nominal drive
current: of two enumerators of `max30100_current_t` the one with the larger
code names the strictly larger current in mA, so a code one higher names a
higher current and a code one lower names a lower current. -/
theorem led_current_code_strictly_monotone_in_mA :
    (∀ a b : max30100_current_t, a.code < b.code → a.mA < b.mA)
    ∧ (∀ a b : max30100_current_t, b.code = a.code + 1 → a.mA < b.mA)
    ∧ (∀ a b : max30100_current_t, b.code + 1 = a.code → b.mA < a.mA) := by
  refine ⟨led_current_mA_lt_of_code_lt, ?_, ?_⟩
  · intro a b h
    exact led_current_mA_lt_of_code_lt a b (by omega)
  · intro a b h
    exact led_current_mA_lt_of_code_lt b a (by omega)

/-- C10 at a concrete pair: 27.1 mA (code 0x08) against 30.6 mA (code 0x09). -/
theorem led_current_code_strictly_monotone_in_mA_witness :
    max30100_current_t.MAX30100_LED_CURRENT_27_1MA.code
        < max30100_current_t.MAX30100_LED_CURRENT_30_6MA.code
    ∧ max30100_current_t.MAX30100_LED_CURRENT_27_1MA.mA
        < max30100_current_t.MAX30100_LED_CURRENT_30_6MA.mA :=
  ⟨by decide, led_current_code_strictly_monotone_in_mA.1 _ _ (by decide)⟩

/-! ## Properties of the default parameters -/

/-- C4: `MAX30100_DEFAULT_ALPHA` equals 0.95, that is 19/20, and lies strictly
between 0 and 1; the field `dc_alpha` that holds it is a float. -/
theorem default_alpha_is_19_over_20_in_unit_interval :
    MAX30100_DEFAULT_ALPHA = 0.95
    ∧ MAX30100_DEFAULT_ALPHA = 19 / 20
    ∧ 0 < MAX30100_DEFAULT_ALPHA
    ∧ MAX30100_DEFAULT_ALPHA < 1
    ∧ max30100_config_t.fieldType "dc_alpha" = some .float := by
  refine ⟨rfl, ?_, ?_, ?_, by decide⟩ <;> norm_num [MAX30100_DEFAULT_ALPHA]

/-- C5: `MAX30100_DEFAULT_RESET_SPO2_EVERY_N_PULSES` equals 4, is at least 1,
and fits the `uint8_t` field `reset_spo2_pulse_n`: storing it there keeps the
value 4. -/
theorem default_reset_spo2_pulse_n_is_4_fits_uint8 :
    MAX30100_DEFAULT_RESET_SPO2_EVERY_N_PULSES = 4
    ∧ 1 ≤ MAX30100_DEFAULT_RESET_SPO2_EVERY_N_PULSES
    ∧ MAX30100_DEFAULT_RESET_SPO2_EVERY_N_PULSES < 2 ^ 8
    ∧ max30100_config_t.fieldType "reset_spo2_pulse_n" = some .uint8_t
    ∧ (max30100_config_t.fieldType "reset_spo2_pulse_n").bind
        (fun t => t.store MAX30100_DEFAULT_RESET_SPO2_EVERY_N_PULSES) = some 4 := by
  refine ⟨rfl, by decide, by decide, by decide, by decide⟩

/-- C6: `MAX30100_DEFAULT_RED_LED_CURRENT_ADJUSTMENT_MS` equals 500 and fits
the `uint32_t` field `red_current_adj_ms`: storing it there keeps the value
500. -/
theorem default_red_current_adj_ms_is_500_fits_uint32 :
    MAX30100_DEFAULT_RED_LED_CURRENT_ADJUSTMENT_MS = 500
    ∧ MAX30100_DEFAULT_RED_LED_CURRENT_ADJUSTMENT_MS < 2 ^ 32
    ∧ max30100_config_t.fieldType "red_current_adj_ms" = some .uint32_t
    ∧ (max30100_config_t.fieldType "red_current_adj_ms").bind
        (fun t => t.store MAX30100_DEFAULT_RED_LED_CURRENT_ADJUSTMENT_MS) = some 500 := by
  refine ⟨rfl, by decide, by decide, by decide⟩

/-- C9: the default pulse acceptance interval is non-empty and representable:
`MAX30100_DEFAULT_PULSE_MIN_THRESHOLD` is 300, strictly below
`MAX30100_DEFAULT_PULSE_MAX_THRESHOLD`, which is 2000; the fields
`pulse_min_threshold` and `pulse_max_threshold` are `uint16_t` and hold both
values without truncation; some peak magnitude lies within [min, max]. -/
theorem default_pulse_thresholds_nonempty_fit_uint16 :
    MAX30100_DEFAULT_PULSE_MIN_THRESHOLD = 300
    ∧ MAX30100_DEFAULT_PULSE_MAX_THRESHOLD = 2000
    ∧ MAX30100_DEFAULT_PULSE_MIN_THRESHOLD < MAX30100_DEFAULT_PULSE_MAX_THRESHOLD
    ∧ max30100_config_t.fieldType "pulse_min_threshold" = some .uint16_t
    ∧ max30100_config_t.fieldType "pulse_max_threshold" = some .uint16_t
    ∧ (max30100_config_t.fieldType "pulse_min_threshold").bind
        (fun t => t.store MAX30100_DEFAULT_PULSE_MIN_THRESHOLD)
        = some MAX30100_DEFAULT_PULSE_MIN_THRESHOLD
    ∧ (max30100_config_t.fieldType "pulse_max_threshold").bind
        (fun t => t.store MAX30100_DEFAULT_PULSE_MAX_THRESHOLD)
        = some MAX30100_DEFAULT_PULSE_MAX_THRESHOLD
    ∧ (∃ m : Nat, MAX30100_DEFAULT_PULSE_MIN_THRESHOLD ≤ m
        ∧ m ≤ MAX30100_DEFAULT_PULSE_MAX_THRESHOLD) := by
  refine ⟨rfl, rfl, by decide, by decide, by decide, by decide, by decide,
    ⟨MAX30100_DEFAULT_PULSE_MIN_THRESHOLD, le_refl _, by decide⟩⟩

/-! ## The DC filter -/

/-- C3: for every sample `raw`, coefficient `alpha` and DC filter state
`(w, result)`, the filter computes `w_new = raw + alpha * w`, returns
`w_new - w`, and leaves the state `(w_new, w_new - w)`; from the zero state
the first call returns `raw`. -/
theorem dc_filter_apply_spec (alpha raw : ℚ) (state : DCFilterState) :
    (dc_filter_apply alpha raw state).2.w = raw + alpha * state.w
    ∧ (dc_filter_apply alpha raw state).1 = (raw + alpha * state.w) - state.w
    ∧ (dc_filter_apply alpha raw state).2
        = { w := raw + alpha * state.w, result := (raw + alpha * state.w) - state.w }
    ∧ (dc_filter_apply alpha raw state).2.result = (dc_filter_apply alpha raw state).1
    ∧ (dc_filter_apply alpha raw DCFilterState.zero).1 = raw := by
  refine ⟨rfl, rfl, rfl, rfl, ?_⟩
  simp [dc_filter_apply, DCFilterState.zero]

/-! ## The output snapshot -/

/-- C8 fails as stated: `last_beat_threshold` of `max30100_data_t` is declared
`uint32_t`, whereas the specification lists it as a float, so it is not true
that every field other than `pulse_detected` is a float, and the declared
field types differ from the ones the specification lists. -/
theorem data_t_last_beat_threshold_is_not_float :
    max30100_data_t.fieldType "last_beat_threshold" = some .uint32_t
    ∧ PipelineOutput_spec.fieldType "last_beat_threshold" = some .float
    ∧ ¬ (∀ f ∈ max30100_data_t, f.1 ≠ "pulse_detected" → f.2 = CType.float)
    ∧ max30100_data_t.map Prod.snd ≠ PipelineOutput_spec.map Prod.snd := by
  refine ⟨by decide, by decide, by decide, by decide⟩

/-- C8, amended: `max30100_data_t` has exactly nine fields, with distinct
names, matching in order the nine that the specification lists for
PipelineOutput; `pulse_detected` is a boolean, `last_beat_threshold` is a
`uint32_t` (as is the field of that name in `max30100_config_t`), and each of
the other seven fields is a float. Field by field the declared type is the
one the specification lists, except at `last_beat_threshold`; the names are the
ones the specification lists, except that the header writes `ir_dc_value`,
`red_dc_value` and `spO2`. -/
theorem data_t_nine_fields_float_except_last_beat_threshold :
    max30100_data_t.length = 9
    ∧ PipelineOutput_spec.length = 9
    ∧ (max30100_data_t.map Prod.fst).Nodup
    ∧ max30100_data_t.fieldType "pulse_detected" = some .bool
    ∧ max30100_data_t.fieldType "last_beat_threshold" = some .uint32_t
    ∧ max30100_config_t.fieldType "last_beat_threshold" = some .uint32_t
    ∧ (∀ f ∈ max30100_data_t,
        f.1 ≠ "pulse_detected" → f.1 ≠ "last_beat_threshold" → f.2 = CType.float)
    ∧ (max30100_data_t.filter (fun f => f.2 = CType.float)).length = 7
    ∧ (∀ i : Nat, i < 9 → i ≠ 6 →
        (max30100_data_t.map Prod.snd)[i]? = (PipelineOutput_spec.map Prod.snd)[i]?)
    ∧ (max30100_data_t.map Prod.fst)[6]? = some "last_beat_threshold"
    ∧ (∀ i : Nat, i < 9 → i ∉ [3, 4, 5] →
        (max30100_data_t.map Prod.fst)[i]? = (PipelineOutput_spec.map Prod.fst)[i]?)
    ∧ ((max30100_data_t.map Prod.fst).drop 3).take 3
        = ["ir_dc_value", "red_dc_value", "spO2"] := by
  refine ⟨rfl, rfl, by decide, by decide, by decide, by decide, by decide, by decide,
    by decide, by decide, by decide, by decide⟩

end Max30100
